import Mathlib

/-!
Shallow embedding of the order-lifecycle / reconciliation core of
`src/order_manager.py` (class `OrderManager`), together with proofs of the
specification's claims about it.

Quantities that are Python floats (lot sizes, prices) are modelled as
rationals.  All rational arithmetic in the embedding goes through the
executable helpers below (built on `mkRat`), so that every definition can be
evaluated on concrete inputs by kernel reduction.
-/

/-- Executable multiplication on `ℚ` (same value as `Rat.mul`). -/
def qmul (a b : ℚ) : ℚ := mkRat (a.num * b.num) (a.den * b.den)

/-- Executable addition on `ℚ` (same value as `Rat.add`). -/
def qadd (a b : ℚ) : ℚ := mkRat (a.num * b.den + b.num * a.den) (a.den * b.den)

/-- Executable subtraction on `ℚ`. -/
def qsub (a b : ℚ) : ℚ := qadd a (-b)

/-- Executable absolute value on `ℚ` (Python `abs`). -/
def qabs (a : ℚ) : ℚ := if a < mkRat 0 1 then -a else a

/-- Python `math.ceil` on a rational, returned as a rational (an integer value). -/
def ratCeilQ (q : ℚ) : ℚ := mkRat q.ceil 1

/-- Exponentiation by a natural, via `qmul`. -/
def qpow (m : ℚ) : ℕ → ℚ
  | 0 => mkRat 1 1
  | n + 1 => qmul (qpow m n) m

/-- Python `round` (banker's rounding, half to even) to an integer. -/
def roundHalfEven (q : ℚ) : ℤ :=
  let f := q.floor
  let frac := qsub q (mkRat f 1)
  if frac < mkRat 1 2 then f
  else if mkRat 1 2 < frac then f + 1
  else if f % 2 = 0 then f else f + 1

/-- Python `round(q, d)`: banker's rounding at `d` decimal digits. -/
def roundTo (d : ℕ) (q : ℚ) : ℚ :=
  mkRat (roundHalfEven (qmul q (mkRat (10 ^ d) 1))) (10 ^ d)

/-- Position direction, the `side` strings "LONG" / "SHORT" of the source. -/
inductive Side
  | LONG
  | SHORT
deriving Repr, DecidableEq, BEq

/-- Normalized order status, the result of `_check_order_filled` /
`_check_order_filled_retry`.  `opened` models the ccxt status string "open";
`unknown` models both the "unknown" result and the empty status string. -/
inductive OrderStatus
  | opened
  | closed
  | canceled
  | unknown
deriving Repr, DecidableEq, BEq

/-- Kind of a terminal trade-result record emitted by `check_orders_status`
(`log_trade_result` call sites): a TP fill, an SL fill, or an externally
canceled TP (which the code also reports, with `exit_type` "SL"). -/
inductive EventKind
  | tpFill
  | slFill
  | tpCancel
deriving Repr, DecidableEq, BEq

/-- The `exit_type` field written into the trade-result dict at each
`log_trade_result` call site of `check_orders_status`. -/
inductive ExitType
  | TP
  | SL
deriving Repr, DecidableEq, BEq

/-- `exit_type` as recorded by the source at each emission site:
the TP-fill branch writes "TP"; both the SL-fill branch and the
TP-canceled branch write "SL". -/
def exit_type_of : EventKind → ExitType
  | .tpFill => .TP
  | .slFill => .SL
  | .tpCancel => .SL

/-- One emitted trade-result record (ghost observation of
`log_trade_result`): its kind, the dict key (`size`) it was emitted for, and
the observed exit price (`filled_price`, possibly absent). -/
structure ExitRec where
  kind : EventKind
  size : ℚ
  exit_price : Option ℚ
deriving Repr, DecidableEq

/-- The mutable `OrderManager` state relevant to the reconciliation claims.
`events`, `cancels` and `saves` are ghost observation fields recording the
`log_trade_result` emissions, the order ids passed to `_cancel_orders`, and
the number of `_save_trade_state` calls. -/
structure OMState where
  lot_size : ℚ
  martingale_factor : ℚ
  dynamic_lot_size : ℚ
  consecutive_losses : ℕ
  entry_order_id : Option ℕ
  entry_price : Option ℚ
  open_position_side : Option Side
  tp_order_ids : List (ℚ × ℕ)
  sl_order_ids : List (ℚ × ℕ)
  tp_retry_needed : Bool
  tp_filled_price : Option ℚ
  events : List ExitRec
  cancels : List ℕ
  saves : ℕ
deriving Repr, DecidableEq

/-- Dict lookup, `m[k]` on the `{size: order_id}` dicts. -/
def dict_find (m : List (ℚ × ℕ)) (k : ℚ) : Option ℕ :=
  (m.find? fun p => decide (p.1 = k)).map (·.2)

/-- Dict deletion, `del m[k]` on the `{size: order_id}` dicts. -/
def dict_del (m : List (ℚ × ℕ)) (k : ℚ) : List (ℚ × ℕ) :=
  m.filter fun p => decide (p.1 ≠ k)

/-- `OrderManager._clear_order_info`: drops the entry order id and empties
both exit-order dicts (cache/lock bookkeeping is not part of the model). -/
def clear_order_info (s : OMState) : OMState :=
  { s with entry_order_id := none, tp_order_ids := [], sl_order_ids := [] }

/-- External inputs consumed by one `check_orders_status` pass: the result of
`_check_order_filled_retry` per order id, the result of
`_is_entry_order_expired`, the status re-check after an expiry cancel, and
the outcome of a retried `place_take_profit_order`. -/
structure PassInput where
  oracle : ℕ → OrderStatus × Option ℚ
  expired : Bool
  cancel_recheck : OrderStatus
  tp_retry_ok : Bool
  new_tp_id : ℕ

/-- The TP-retry block at the top of `check_orders_status`, inlining
`place_take_profit_order`'s tracking effects: skip (and clear the retry
flags) if an order for this size already exists, refuse non-positive sizes,
otherwise record the new TP order id on success. -/
def tp_retry_block (inp : PassInput) (s : OMState) : OMState :=
  if s.tp_retry_needed && (match s.tp_filled_price with
      | some p => !(decide (p = mkRat 0 1))
      | none => false) then
    if (dict_find s.tp_order_ids s.dynamic_lot_size).isSome then
      { s with tp_retry_needed := false, tp_filled_price := none }
    else if s.dynamic_lot_size ≤ mkRat 0 1 then s
    else if inp.tp_retry_ok then
      { s with tp_order_ids := (s.dynamic_lot_size, inp.new_tp_id) :: s.tp_order_ids,
               tp_retry_needed := false, tp_filled_price := none }
    else s
  else s

/-- The entry-order section of `check_orders_status`.  Returns the new state
and whether the pass returned early. -/
def entry_check (inp : PassInput) (s : OMState) : OMState × Bool :=
  match s.entry_order_id with
  | none => (s, false)
  | some eid =>
    match (inp.oracle eid).1 with
    | .closed =>
        ({ s with entry_order_id := none,
                  entry_price := some ((inp.oracle eid).2.getD (mkRat 0 1)),
                  saves := s.saves + 1 }, true)
    | .canceled => (clear_order_info s, true)
    | _ =>
        if inp.expired then
          let s1 := { s with cancels := eid :: s.cancels }
          if inp.cancel_recheck = .canceled then (clear_order_info s1, true)
          else (s1, true)
        else (s, false)

/-- Cancel-and-delete of the sibling SL order (`if size in self.sl_order_ids`
inside the TP branches). -/
def sibling_sl_cancel (s : OMState) (size : ℚ) : OMState :=
  match dict_find s.sl_order_ids size with
  | some slid =>
      { s with cancels := slid :: s.cancels, sl_order_ids := dict_del s.sl_order_ids size }
  | none => s

/-- Cancel-and-delete of the sibling TP order (`if size in self.tp_order_ids`
inside the SL branch). -/
def sibling_tp_cancel (s : OMState) (size : ℚ) : OMState :=
  match dict_find s.tp_order_ids size with
  | some tid =>
      { s with cancels := tid :: s.cancels, tp_order_ids := dict_del s.tp_order_ids size }
  | none => s

/-- The `status == "canceled"` branch of the TP loop: emit a trade result
with `exit_type` "SL", drop the TP id, cancel and drop the sibling SL, then
apply the martingale step (`consecutive_losses += 1`,
`dynamic_lot_size = math.ceil(dynamic_lot_size * martingale_factor)`) and save. -/
def tp_cancel_branch (inp : PassInput) (s : OMState) (size : ℚ) (tid : ℕ) : OMState :=
  let s1 := { s with events := ⟨.tpCancel, size, (inp.oracle tid).2⟩ :: s.events,
                     tp_order_ids := dict_del s.tp_order_ids size }
  let s2 := sibling_sl_cancel s1 size
  { s2 with consecutive_losses := s2.consecutive_losses + 1,
            dynamic_lot_size := ratCeilQ (qmul s2.dynamic_lot_size s2.martingale_factor),
            saves := s2.saves + 1 }

/-- The `status == "closed"` branch of the TP loop: emit a trade result with
`exit_type` "TP", drop the TP id, cancel and drop the sibling SL, reset the
martingale (`consecutive_losses = 0`, `dynamic_lot_size = lot_size`), save,
and clear the order info. -/
def tp_fill_branch (inp : PassInput) (s : OMState) (size : ℚ) (tid : ℕ) : OMState :=
  let s1 := { s with events := ⟨.tpFill, size, (inp.oracle tid).2⟩ :: s.events,
                     tp_order_ids := dict_del s.tp_order_ids size }
  let s2 := sibling_sl_cancel s1 size
  clear_order_info
    { s2 with consecutive_losses := 0,
              dynamic_lot_size := s2.lot_size,
              saves := s2.saves + 1 }

/-- The `status == "closed"` branch of the SL loop: emit a trade result with
`exit_type` "SL", drop the SL id, cancel and drop the sibling TP, apply the
martingale step, save, and clear the order info. -/
def sl_fill_branch (inp : PassInput) (s : OMState) (size : ℚ) (oid : ℕ) : OMState :=
  let s1 := { s with events := ⟨.slFill, size, (inp.oracle oid).2⟩ :: s.events,
                     sl_order_ids := dict_del s.sl_order_ids size }
  let s2 := sibling_tp_cancel s1 size
  clear_order_info
    { s2 with consecutive_losses := s2.consecutive_losses + 1,
              dynamic_lot_size := ratCeilQ (qmul s2.dynamic_lot_size s2.martingale_factor),
              saves := s2.saves + 1 }

/-- The `for size, tp_order_id in list(self.tp_order_ids.items())` loop.
The list argument is the snapshot taken at loop entry; the boolean in the
result records an early `return` out of `check_orders_status`. -/
def tp_loop (inp : PassInput) : OMState → List (ℚ × ℕ) → OMState × Bool
  | s, [] => (s, false)
  | s, (size, tid) :: rest =>
    match (inp.oracle tid).1 with
    | .canceled => tp_loop inp (tp_cancel_branch inp s size tid) rest
    | .closed => (tp_fill_branch inp s size tid, true)
    | _ => tp_loop inp s rest

/-- The `for size, sl_order_id in list(self.sl_order_ids.items())` loop. -/
def sl_loop (inp : PassInput) : OMState → List (ℚ × ℕ) → OMState × Bool
  | s, [] => (s, false)
  | s, (size, oid) :: rest =>
    match (inp.oracle oid).1 with
    | .closed => (sl_fill_branch inp s size oid, true)
    | _ => sl_loop inp s rest

/-- One `OrderManager.check_orders_status` reconciliation pass. -/
def check_orders_status (inp : PassInput) (s : OMState) : OMState :=
  let s0 := tp_retry_block inp s
  let e := entry_check inp s0
  if e.2 then e.1
  else
    let t := tp_loop inp e.1 e.1.tp_order_ids
    if t.2 then t.1
    else (sl_loop inp t.1 t.1.sl_order_ids).1

/-- A sequence of reconciliation passes. -/
def run_passes (inps : List PassInput) (s : OMState) : OMState :=
  inps.foldl (fun t i => check_orders_status i t) s

/-- `OrderManager._check_order_filled_retry`'s attempt loop: `query n` is the
status observed on the n-th attempt (attempts are numbered from 1); a status
other than `unknown` returns immediately, and exhausting the attempts yields
`(unknown, none)`. -/
def check_retry_go (query : ℕ → OrderStatus × Option ℚ) : ℕ → ℕ → OrderStatus × Option ℚ
  | _, 0 => (.unknown, none)
  | attempt, r + 1 =>
    if (query attempt).1 = .unknown then check_retry_go query (attempt + 1) r
    else query attempt

/-- `OrderManager._check_order_filled_retry`. -/
def check_order_filled_retry (query : ℕ → OrderStatus × Option ℚ)
    (max_retries : ℕ) : OrderStatus × Option ℚ :=
  check_retry_go query 1 max_retries

/-- Live-exchange observations consumed by `has_open_position_or_order`:
whether the submission lock window is still active, the `fetch_positions`
result (contract sizes, or an exception), the retried status of the entry
order, and the `fetch_open_orders` result (order ids, or an exception). -/
structure ExchEnv where
  lock_active : Bool
  positions : Except Unit (List ℚ)
  entry_status : OrderStatus
  open_orders : Except Unit (List ℕ)

/-- `OrderManager.has_open_position_or_order`: lock window, live positions
(any contract size of absolute value above 0.0001), tracked TP/SL dicts, an
entry order whose retried status is "open", and finally live open orders.
Each `except` branch of the source returns `True`. -/
def has_open_position_or_order (env : ExchEnv) (s : OMState) : Bool :=
  if env.lock_active then true
  else
    match env.positions with
    | .error _ => true
    | .ok contracts =>
      if contracts.any (fun c => qabs c > mkRat 1 10000) then true
      else if !s.tp_order_ids.isEmpty || !s.sl_order_ids.isEmpty then true
      else if s.entry_order_id.isSome && env.entry_status == .opened then true
      else
        match env.open_orders with
        | .error _ => true
        | .ok orders => !orders.isEmpty

/-- Outcome of the submission decision inside `place_entry_order`.
`sizeTooSmall` is the refusal condition the specification describes; the
source never produces it. -/
inductive EntryOutcome
  | skippedExisting
  | submitted (vol : ℚ) (sl_price : ℚ)
  | sizeTooSmall
deriving Repr, DecidableEq

/-- The submission decision of `OrderManager.place_entry_order`: skip when
`has_open_position_or_order` reports an existing position/order, otherwise
submit with `vol = round(dynamic_lot_size, 3)` and the side-dependent
stop-loss price `round(trigger_price ± offset_sl, 1)`.  No minimum-size
check appears anywhere on this path. -/
def place_entry_order (env : ExchEnv) (side : Side) (trigger_price offset_sl : ℚ)
    (s : OMState) : EntryOutcome :=
  if has_open_position_or_order env s then .skippedExisting
  else
    let sl_price :=
      match side with
      | .SHORT => roundTo 1 (qadd trigger_price offset_sl)
      | .LONG => roundTo 1 (qsub trigger_price offset_sl)
    .submitted (roundTo 3 s.dynamic_lot_size) sl_price

/-- The persisted snapshot dict written by `_save_trade_state` / read by
`_load_trade_state`.  `Option` fields model dict keys that may be absent. -/
structure SavedState where
  trade_id : Option ℕ
  dynamic_lot_size : Option ℚ
  consecutive_losses : Option ℕ
  open_position_side : Option Side
  last_trade_time : Option ℚ
  tp_order_ids : List (ℚ × ℕ)
  sl_order_ids : List (ℚ × ℕ)
  entry_price : Option ℚ
deriving Repr, DecidableEq

/-- `OrderManager._is_state_reset_needed`: reset when the snapshot is absent,
when the `trade_id` or `dynamic_lot_size` key is missing, or — only when
`MARTINGALE_RESET_TIMEOUT > 0` — when more than the timeout elapsed since
`last_trade_time` (a missing `last_trade_time` counts as 0). -/
def is_state_reset_needed (reset_timeout now : ℚ) : Option SavedState → Bool
  | none => true
  | some st =>
    if st.trade_id.isNone || st.dynamic_lot_size.isNone then true
    else if reset_timeout > mkRat 0 1 then
      decide (qsub now (st.last_trade_time.getD (mkRat 0 1)) > reset_timeout)
    else false

/-- Restart-relevant slice of the manager state for
`_restore_trade_state` / `reset_martingale`: the current trade id is added
to the fields of `OMState` the restore path touches. -/
structure RestoreState where
  om : OMState
  current_trade_id : Option ℕ
deriving Repr, DecidableEq

/-- `OrderManager.reset_martingale` (state effects; the persisted reset
snapshot write is not modelled). -/
def reset_martingale (r : RestoreState) : RestoreState :=
  { om :=
      { r.om with
        dynamic_lot_size := r.om.lot_size,
        consecutive_losses := 0,
        entry_order_id := none,
        entry_price := none,
        tp_order_ids := [],
        sl_order_ids := [],
        open_position_side := none },
    current_trade_id := none }

/-- `OrderManager._restore_trade_state`, called from `__init__` on process
start when persistence is enabled: no snapshot leaves the fresh state
untouched; a snapshot needing reset triggers `reset_martingale`; otherwise
every persisted field is adopted. -/
def restore_trade_state (persistence : Bool) (reset_timeout now : ℚ)
    (saved : Option SavedState) (r : RestoreState) : RestoreState :=
  if !persistence then r
  else
    match saved with
    | none => r
    | some st =>
      if is_state_reset_needed reset_timeout now (some st) then reset_martingale r
      else
        { om :=
            { r.om with
              dynamic_lot_size := st.dynamic_lot_size.getD r.om.lot_size,
              consecutive_losses := st.consecutive_losses.getD 0,
              open_position_side := st.open_position_side,
              tp_order_ids := st.tp_order_ids,
              sl_order_ids := st.sl_order_ids,
              entry_price := st.entry_price },
          current_trade_id := st.trade_id }

/-- A fetched exchange order record as read by `_is_entry_order_expired`
(`filled`, `amount`, `price`, each defaulted to 0 when the key is absent). -/
structure FetchedOrder where
  filled : ℚ
  amount : ℚ
  price : ℚ
deriving Repr, DecidableEq

/-- Inputs to `_is_entry_order_expired`: the recorded submission timestamp,
the current time and configured timeout, the two `fetch_order` calls (outer
`Except` models a raised exception, inner `Option` a `None` result), the
cached market price, the entry offset, and the position side. -/
structure ExpiryEnv where
  order_timestamp : Option ℚ
  now : ℚ
  order_timeout_sec : ℚ
  first_fetch : Except Unit (Option FetchedOrder)
  second_fetch : Except Unit (Option FetchedOrder)
  current_market_price : Option ℚ
  offset_entry : ℚ
  side : Option Side
deriving Repr

/-- `OrderManager._is_entry_order_expired`.  Not expired without a recorded
timestamp or within the timeout; a partial fill (0 < filled < amount, with a
swallowed exception counting as no partial fill) defers expiry; a missing or
zero (falsy) market price, a failed or empty second fetch, or an undefined
side all force expiry; otherwise the price-proximity extension decides. -/
def is_entry_order_expired (e : ExpiryEnv) : Bool :=
  match e.order_timestamp with
  | none => false
  | some t0 =>
    if qsub e.now t0 ≤ e.order_timeout_sec then false
    else
      let partFill :=
        match e.first_fetch with
        | .ok (some od) => decide (od.filled > mkRat 0 1 ∧ od.filled < od.amount)
        | _ => false
      if partFill then false
      else
        match e.current_market_price with
        | none => true
        | some p =>
          if p = mkRat 0 1 then true
          else
            match e.second_fetch with
            | .error _ => true
            | .ok none => true
            | .ok (some ord) =>
              match e.side with
              | some .SHORT =>
                  !(decide (p ≥ qsub (qsub ord.price e.offset_entry) (mkRat 1 100000)))
              | some .LONG =>
                  !(decide (p ≤ qadd (qadd ord.price e.offset_entry) (mkRat 1 100000)))
              | none => true

/-- The continuation zone of the specification: the market price has moved to
within `offset_entry` (plus the source's epsilon 0.00001) of the entry price
on the converging side. -/
def continuation_zone (sd : Side) (p entry_price offset : ℚ) : Bool :=
  match sd with
  | .SHORT => decide (p ≥ qsub (qsub entry_price offset) (mkRat 1 100000))
  | .LONG => decide (p ≤ qadd (qadd entry_price offset) (mkRat 1 100000))

/-- The lot size the source's loss path actually produces after `n`
consecutive losses from base `base`: each loss step executes
`dynamic_lot_size = math.ceil(dynamic_lot_size * martingale_factor)`. -/
def lossSize (base factor : ℚ) : ℕ → ℚ
  | 0 => base
  | n + 1 => ratCeilQ (qmul (lossSize base factor n) factor)

/-- Modelled from the spec: `next_size` = `floor_to_step(base * multiplier^level)`,
for a minimum step of the form `1 / step_den` (e.g. `step_den = 1000` for the
0.001 contract step, `step_den = 1` for whole contracts).  This is the
specification's closed-form sizing law, to be compared with `lossSize`. -/
def specNextSize (base mult : ℚ) (level : ℕ) (step_den : ℕ) : ℚ :=
  mkRat (qmul (qmul base (qpow mult level)) (mkRat step_den 1)).floor step_den

/-- Whether a TP fill has been recorded among the emitted trade results. -/
def hasTPFill (evs : List ExitRec) : Bool := evs.any fun e => e.kind == .tpFill

/-- Whether an SL fill has been recorded among the emitted trade results. -/
def hasSLFill (evs : List ExitRec) : Bool := evs.any fun e => e.kind == .slFill

/-- At most one of the two exit legs is recorded as filled. -/
def fills_exclusive (evs : List ExitRec) : Bool := !(hasTPFill evs && hasSLFill evs)

/-- The canonical state of a trade whose entry has filled and whose TP/SL
pair is outstanding: one TP order `a` and one SL order `b`, both keyed by the
position size `sz`, no outstanding entry order, no pending TP retry. -/
def pair_state (base factor lot : ℚ) (n : ℕ) (sz : ℚ) (a b : ℕ)
    (side : Option Side) (ep : Option ℚ) : OMState :=
  { lot_size := base
    martingale_factor := factor
    dynamic_lot_size := lot
    consecutive_losses := n
    entry_order_id := none
    entry_price := ep
    open_position_side := side
    tp_order_ids := [(sz, a)]
    sl_order_ids := [(sz, b)]
    tp_retry_needed := false
    tp_filled_price := none
    events := []
    cancels := []
    saves := 0 }

theorem dict_find_cons_self (k : ℚ) (v : ℕ) (rest : List (ℚ × ℕ)) :
    dict_find ((k, v) :: rest) k = some v := by
  simp [dict_find]

theorem dict_del_single (k : ℚ) (v : ℕ) : dict_del [(k, v)] k = [] := by
  simp [dict_del]

theorem tp_retry_block_skip (inp : PassInput) (s : OMState)
    (h : s.tp_retry_needed = false) : tp_retry_block inp s = s := by
  simp [tp_retry_block, h]

theorem entry_check_none (inp : PassInput) (s : OMState)
    (h : s.entry_order_id = none) : entry_check inp s = (s, false) := by
  simp [entry_check, h]

/-- A pass over a state with no entry order, no TP retry pending and empty
TP/SL dicts changes nothing. -/
theorem check_orders_status_inert (inp : PassInput) (s : OMState)
    (h1 : s.entry_order_id = none) (h2 : s.tp_retry_needed = false)
    (h3 : s.tp_order_ids = []) (h4 : s.sl_order_ids = []) :
    check_orders_status inp s = s := by
  simp [check_orders_status, tp_retry_block_skip inp s h2, entry_check_none inp s h1,
    h3, h4, tp_loop, sl_loop]

/-- Pair-state pass, TP observed canceled: the pass records a loss result,
empties both dicts, cancels the sibling SL and applies the martingale step. -/
theorem pass_pair_tp_canceled (inp : PassInput) (s : OMState) (sz : ℚ) (a b : ℕ)
    (h1 : s.entry_order_id = none) (h2 : s.tp_retry_needed = false)
    (h3 : s.tp_order_ids = [(sz, a)]) (h4 : s.sl_order_ids = [(sz, b)])
    (ho : (inp.oracle a).1 = .canceled) :
    check_orders_status inp s =
      { s with events := ⟨.tpCancel, sz, (inp.oracle a).2⟩ :: s.events,
               tp_order_ids := [], sl_order_ids := [],
               cancels := b :: s.cancels,
               consecutive_losses := s.consecutive_losses + 1,
               dynamic_lot_size := ratCeilQ (qmul s.dynamic_lot_size s.martingale_factor),
               saves := s.saves + 1 } := by
  simp [check_orders_status, tp_retry_block_skip inp s h2, entry_check_none inp s h1,
    h3, h4, tp_loop, ho, tp_cancel_branch, sibling_sl_cancel, dict_find, dict_del, sl_loop]

/-- Pair-state pass, TP observed filled: the pass records the win, empties
both dicts, cancels the sibling SL and resets the martingale. -/
theorem pass_pair_tp_closed (inp : PassInput) (s : OMState) (sz : ℚ) (a b : ℕ)
    (h1 : s.entry_order_id = none) (h2 : s.tp_retry_needed = false)
    (h3 : s.tp_order_ids = [(sz, a)]) (h4 : s.sl_order_ids = [(sz, b)])
    (ho : (inp.oracle a).1 = .closed) :
    check_orders_status inp s =
      { s with events := ⟨.tpFill, sz, (inp.oracle a).2⟩ :: s.events,
               entry_order_id := none,
               tp_order_ids := [], sl_order_ids := [],
               cancels := b :: s.cancels,
               consecutive_losses := 0,
               dynamic_lot_size := s.lot_size,
               saves := s.saves + 1 } := by
  simp [check_orders_status, tp_retry_block_skip inp s h2, entry_check_none inp s h1,
    h3, h4, tp_loop, ho, tp_fill_branch, sibling_sl_cancel, dict_find, dict_del,
    clear_order_info]

/-- Pair-state pass, TP not terminal and SL observed filled: the pass records
the loss, empties both dicts, cancels the sibling TP and applies the
martingale step. -/
theorem pass_pair_sl_closed (inp : PassInput) (s : OMState) (sz : ℚ) (a b : ℕ)
    (h1 : s.entry_order_id = none) (h2 : s.tp_retry_needed = false)
    (h3 : s.tp_order_ids = [(sz, a)]) (h4 : s.sl_order_ids = [(sz, b)])
    (hoa : (inp.oracle a).1 = .opened ∨ (inp.oracle a).1 = .unknown)
    (hob : (inp.oracle b).1 = .closed) :
    check_orders_status inp s =
      { s with events := ⟨.slFill, sz, (inp.oracle b).2⟩ :: s.events,
               entry_order_id := none,
               tp_order_ids := [], sl_order_ids := [],
               cancels := a :: s.cancels,
               consecutive_losses := s.consecutive_losses + 1,
               dynamic_lot_size := ratCeilQ (qmul s.dynamic_lot_size s.martingale_factor),
               saves := s.saves + 1 } := by
  rcases hoa with hoa | hoa <;>
  simp [check_orders_status, tp_retry_block_skip inp s h2, entry_check_none inp s h1,
    h3, h4, tp_loop, hoa, hob, sl_loop, sl_fill_branch, sibling_tp_cancel, dict_find,
    dict_del, clear_order_info]

/-- Pair-state pass with neither leg in a terminal-action status: nothing
changes. -/
theorem pass_pair_idle (inp : PassInput) (s : OMState) (sz : ℚ) (a b : ℕ)
    (h1 : s.entry_order_id = none) (h2 : s.tp_retry_needed = false)
    (h3 : s.tp_order_ids = [(sz, a)]) (h4 : s.sl_order_ids = [(sz, b)])
    (hoa : (inp.oracle a).1 = .opened ∨ (inp.oracle a).1 = .unknown)
    (hob : (inp.oracle b).1 ≠ .closed) :
    check_orders_status inp s = s := by
  rcases hoa with hoa | hoa <;>
  cases hb : (inp.oracle b).1 <;>
  first
  | exact absurd hb hob
  | simp [check_orders_status, tp_retry_block_skip inp s h2, entry_check_none inp s h1,
      h3, h4, tp_loop, hoa, hb, sl_loop]

theorem hasTPFill_cons (e : ExitRec) (evs : List ExitRec) :
    hasTPFill (e :: evs) = ((e.kind == .tpFill) || hasTPFill evs) := by
  simp [hasTPFill]

theorem hasSLFill_cons (e : ExitRec) (evs : List ExitRec) :
    hasSLFill (e :: evs) = ((e.kind == .slFill) || hasSLFill evs) := by
  simp [hasSLFill]

/-- Invariant carried across reconciliation passes over one trade's exit
pair: no outstanding entry, no pending TP retry, never both legs recorded as
filled, and either the untouched pair is still tracked (with no fill recorded
yet) or both dicts have been emptied. -/
def ocoInv (s : OMState) : Prop :=
  s.entry_order_id = none ∧ s.tp_retry_needed = false ∧
  fills_exclusive s.events = true ∧
  ((∃ sz a b, s.tp_order_ids = [(sz, a)] ∧ s.sl_order_ids = [(sz, b)]
      ∧ hasTPFill s.events = false ∧ hasSLFill s.events = false)
   ∨ (s.tp_order_ids = [] ∧ s.sl_order_ids = []))

theorem ocoInv_step (inp : PassInput) (s : OMState) (h : ocoInv s) :
    ocoInv (check_orders_status inp s) := by
  obtain ⟨h1, h2, hex, hcase⟩ := h
  rcases hcase with ⟨sz, a, b, htp, hsl, hTF, hSF⟩ | ⟨htp, hsl⟩
  · cases ha : (inp.oracle a).1
    case canceled =>
      rw [pass_pair_tp_canceled inp s sz a b h1 h2 htp hsl ha]
      exact ⟨by simp [h1], by simp [h2],
        by simp [fills_exclusive, hasTPFill_cons, hasSLFill_cons, hTF, hSF]; decide,
        Or.inr ⟨rfl, rfl⟩⟩
    case closed =>
      rw [pass_pair_tp_closed inp s sz a b h1 h2 htp hsl ha]
      exact ⟨rfl, by simp [h2],
        by simp [fills_exclusive, hasTPFill_cons, hasSLFill_cons, hTF, hSF]; decide,
        Or.inr ⟨rfl, rfl⟩⟩
    case opened =>
      cases hb : (inp.oracle b).1
      case closed =>
        rw [pass_pair_sl_closed inp s sz a b h1 h2 htp hsl (Or.inl ha) hb]
        exact ⟨rfl, by simp [h2],
          by simp [fills_exclusive, hasTPFill_cons, hasSLFill_cons, hTF, hSF]; decide,
          Or.inr ⟨rfl, rfl⟩⟩
      case opened =>
        rw [pass_pair_idle inp s sz a b h1 h2 htp hsl (Or.inl ha) (by simp [hb])]
        exact ⟨h1, h2, hex, Or.inl ⟨sz, a, b, htp, hsl, hTF, hSF⟩⟩
      case canceled =>
        rw [pass_pair_idle inp s sz a b h1 h2 htp hsl (Or.inl ha) (by simp [hb])]
        exact ⟨h1, h2, hex, Or.inl ⟨sz, a, b, htp, hsl, hTF, hSF⟩⟩
      case unknown =>
        rw [pass_pair_idle inp s sz a b h1 h2 htp hsl (Or.inl ha) (by simp [hb])]
        exact ⟨h1, h2, hex, Or.inl ⟨sz, a, b, htp, hsl, hTF, hSF⟩⟩
    case unknown =>
      cases hb : (inp.oracle b).1
      case closed =>
        rw [pass_pair_sl_closed inp s sz a b h1 h2 htp hsl (Or.inr ha) hb]
        exact ⟨rfl, by simp [h2],
          by simp [fills_exclusive, hasTPFill_cons, hasSLFill_cons, hTF, hSF]; decide,
          Or.inr ⟨rfl, rfl⟩⟩
      case opened =>
        rw [pass_pair_idle inp s sz a b h1 h2 htp hsl (Or.inr ha) (by simp [hb])]
        exact ⟨h1, h2, hex, Or.inl ⟨sz, a, b, htp, hsl, hTF, hSF⟩⟩
      case canceled =>
        rw [pass_pair_idle inp s sz a b h1 h2 htp hsl (Or.inr ha) (by simp [hb])]
        exact ⟨h1, h2, hex, Or.inl ⟨sz, a, b, htp, hsl, hTF, hSF⟩⟩
      case unknown =>
        rw [pass_pair_idle inp s sz a b h1 h2 htp hsl (Or.inr ha) (by simp [hb])]
        exact ⟨h1, h2, hex, Or.inl ⟨sz, a, b, htp, hsl, hTF, hSF⟩⟩
  · rw [check_orders_status_inert inp s h1 h2 htp hsl]
    exact ⟨h1, h2, hex, Or.inr ⟨htp, hsl⟩⟩

theorem run_passes_cons (i : PassInput) (is : List PassInput) (s : OMState) :
    run_passes (i :: is) s = run_passes is (check_orders_status i s) := rfl

theorem ocoInv_run (inps : List PassInput) (s : OMState) (h : ocoInv s) :
    ocoInv (run_passes inps s) := by
  induction inps generalizing s with
  | nil => exact h
  | cons i is ih => exact run_passes_cons i is s ▸ ih (check_orders_status i s) (ocoInv_step i s h)

/-- C2: for any sequence of fill/cancel observations on a trade's TP/SL
order pair, never are both the TP and the SL recorded as filled for that
trade: once one leg reaches terminal filled status the sibling leg is
canceled and removed from tracking, so every run of reconciliation passes
from a tracked pair records at most one leg as filled. -/
theorem C2_pseudo_oco_exclusivity (base factor lot : ℚ) (n : ℕ) (sz : ℚ) (a b : ℕ)
    (side : Option Side) (ep : Option ℚ) (inps : List PassInput) :
    fills_exclusive
      (run_passes inps (pair_state base factor lot n sz a b side ep)).events = true :=
  (ocoInv_run inps (pair_state base factor lot n sz a b side ep)
    ⟨rfl, rfl, rfl, Or.inl ⟨sz, a, b, rfl, rfl, rfl, rfl⟩⟩).2.2.1

/-- C3: processing a TP-fill observation is idempotent: from a tracked
TP/SL pair, a pass observing the TP as filled emits exactly one trade-result
event, performs exactly one sizing mutation (reset to level 0) and one
persistence write, and a second identical pass changes nothing at all. -/
theorem C3_idempotent_tp_fill (base factor lot : ℚ) (n : ℕ) (sz : ℚ) (a b : ℕ)
    (side : Option Side) (ep : Option ℚ) (inp : PassInput)
    (ho : (inp.oracle a).1 = .closed) :
    (check_orders_status inp (pair_state base factor lot n sz a b side ep)).events
        = [⟨.tpFill, sz, (inp.oracle a).2⟩] ∧
    (check_orders_status inp (pair_state base factor lot n sz a b side ep)).consecutive_losses
        = 0 ∧
    (check_orders_status inp (pair_state base factor lot n sz a b side ep)).saves = 1 ∧
    check_orders_status inp
        (check_orders_status inp (pair_state base factor lot n sz a b side ep))
      = check_orders_status inp (pair_state base factor lot n sz a b side ep) := by
  rw [pass_pair_tp_closed inp _ sz a b rfl rfl rfl rfl ho]
  exact ⟨rfl, rfl, rfl, check_orders_status_inert inp _ rfl rfl rfl rfl⟩

/-- Concrete reconciliation input for witnesses: every status query reports
the order as filled at price 100. -/
def allClosedInput : PassInput :=
  { oracle := fun _ => (.closed, some (mkRat 100 1))
    expired := false
    cancel_recheck := .unknown
    tp_retry_ok := false
    new_tp_id := 0 }

/-- Concrete pair state for witnesses: base 1, factor 2, lot 4, level 2. -/
def witnessPair : OMState :=
  pair_state (mkRat 1 1) (mkRat 2 1) (mkRat 4 1) 2 (mkRat 4 1) 10 11
    (some .LONG) (some (mkRat 100 1))

theorem C3_idempotent_tp_fill_witness :
    (check_orders_status allClosedInput witnessPair).events
        = [⟨.tpFill, mkRat 4 1, some (mkRat 100 1)⟩] ∧
    (check_orders_status allClosedInput witnessPair).consecutive_losses = 0 ∧
    (check_orders_status allClosedInput witnessPair).saves = 1 ∧
    check_orders_status allClosedInput (check_orders_status allClosedInput witnessPair)
      = check_orders_status allClosedInput witnessPair :=
  C3_idempotent_tp_fill (mkRat 1 1) (mkRat 2 1) (mkRat 4 1) 2 (mkRat 4 1) 10 11
    (some .LONG) (some (mkRat 100 1)) allClosedInput rfl

/-- C9: sizing-level update from trade outcome.  A TP fill (win) resets the
consecutive-loss level to 0 and the lot size to the base size regardless of
the prior level; an SL fill (loss) increments the level by exactly 1 and
multiplies the lot by the martingale factor (rounded up), with no upper cap. -/
theorem C9_sizing_level_update (base factor lot : ℚ) (n : ℕ) (sz : ℚ) (a b : ℕ)
    (side : Option Side) (ep : Option ℚ) (iwin iloss : PassInput)
    (hwin : (iwin.oracle a).1 = .closed)
    (hlossa : (iloss.oracle a).1 = .opened)
    (hlossb : (iloss.oracle b).1 = .closed) :
    ((check_orders_status iwin (pair_state base factor lot n sz a b side ep)).consecutive_losses
        = 0 ∧
     (check_orders_status iwin (pair_state base factor lot n sz a b side ep)).dynamic_lot_size
        = base) ∧
    ((check_orders_status iloss (pair_state base factor lot n sz a b side ep)).consecutive_losses
        = n + 1 ∧
     (check_orders_status iloss (pair_state base factor lot n sz a b side ep)).dynamic_lot_size
        = ratCeilQ (qmul lot factor)) := by
  rw [pass_pair_tp_closed iwin _ sz a b rfl rfl rfl rfl hwin,
    pass_pair_sl_closed iloss _ sz a b rfl rfl rfl rfl (Or.inl hlossa) hlossb]
  exact ⟨⟨rfl, rfl⟩, ⟨rfl, rfl⟩⟩

/-- Concrete reconciliation input for witnesses: the TP order (id 10) stays
open, the SL order (id 11) reports filled at price 95. -/
def slClosedInput : PassInput :=
  { oracle := fun oid => if oid = 11 then (.closed, some (mkRat 95 1)) else (.opened, none)
    expired := false
    cancel_recheck := .unknown
    tp_retry_ok := false
    new_tp_id := 0 }

theorem C9_sizing_level_update_witness :
    ((check_orders_status allClosedInput witnessPair).consecutive_losses = 0 ∧
     (check_orders_status allClosedInput witnessPair).dynamic_lot_size = mkRat 1 1) ∧
    ((check_orders_status slClosedInput witnessPair).consecutive_losses = 3 ∧
     (check_orders_status slClosedInput witnessPair).dynamic_lot_size
        = ratCeilQ (qmul (mkRat 4 1) (mkRat 2 1))) :=
  C9_sizing_level_update (mkRat 1 1) (mkRat 2 1) (mkRat 4 1) 2 (mkRat 4 1) 10 11
    (some .LONG) (some (mkRat 100 1)) allClosedInput slClosedInput rfl rfl rfl

/-- C10: a tracked TP order observed as canceled (not filled) is treated as
a completed losing trade: the pass emits one trade result whose `exit_type`
is "SL", increments the consecutive-loss counter, multiplies the lot by the
martingale factor rounded up, cancels the tracked sibling SL order and stops
tracking both legs. -/
theorem C10_canceled_tp_counted_as_loss (base factor lot : ℚ) (n : ℕ) (sz : ℚ) (a b : ℕ)
    (side : Option Side) (ep : Option ℚ) (inp : PassInput)
    (ho : (inp.oracle a).1 = .canceled) :
    (check_orders_status inp (pair_state base factor lot n sz a b side ep)).events
        = [⟨.tpCancel, sz, (inp.oracle a).2⟩] ∧
    ((check_orders_status inp (pair_state base factor lot n sz a b side ep)).events.map
        fun e => exit_type_of e.kind) = [.SL] ∧
    (check_orders_status inp (pair_state base factor lot n sz a b side ep)).consecutive_losses
        = n + 1 ∧
    (check_orders_status inp (pair_state base factor lot n sz a b side ep)).dynamic_lot_size
        = ratCeilQ (qmul lot factor) ∧
    (check_orders_status inp (pair_state base factor lot n sz a b side ep)).cancels = [b] ∧
    (check_orders_status inp (pair_state base factor lot n sz a b side ep)).tp_order_ids = [] ∧
    (check_orders_status inp (pair_state base factor lot n sz a b side ep)).sl_order_ids = [] := by
  rw [pass_pair_tp_canceled inp _ sz a b rfl rfl rfl rfl ho]
  exact ⟨rfl, rfl, rfl, rfl, rfl, rfl, rfl⟩

/-- Concrete reconciliation input for witnesses: every status query reports
the order as canceled, with no fill price. -/
def allCanceledInput : PassInput :=
  { oracle := fun _ => (.canceled, none)
    expired := false
    cancel_recheck := .unknown
    tp_retry_ok := false
    new_tp_id := 0 }

theorem C10_canceled_tp_counted_as_loss_witness :
    (check_orders_status allCanceledInput witnessPair).events
        = [⟨.tpCancel, mkRat 4 1, none⟩] ∧
    ((check_orders_status allCanceledInput witnessPair).events.map
        fun e => exit_type_of e.kind) = [.SL] ∧
    (check_orders_status allCanceledInput witnessPair).consecutive_losses = 3 ∧
    (check_orders_status allCanceledInput witnessPair).dynamic_lot_size
        = ratCeilQ (qmul (mkRat 4 1) (mkRat 2 1)) ∧
    (check_orders_status allCanceledInput witnessPair).cancels = [11] ∧
    (check_orders_status allCanceledInput witnessPair).tp_order_ids = [] ∧
    (check_orders_status allCanceledInput witnessPair).sl_order_ids = [] :=
  C10_canceled_tp_counted_as_loss (mkRat 1 1) (mkRat 2 1) (mkRat 4 1) 2 (mkRat 4 1) 10 11
    (some .LONG) (some (mkRat 100 1)) allCanceledInput rfl

theorem check_retry_go_all_unknown (query : ℕ → OrderStatus × Option ℚ)
    (h : ∀ i, (query i).1 = .unknown) (att m : ℕ) :
    check_retry_go query att m = (.unknown, none) := by
  induction m generalizing att with
  | zero => rfl
  | succ r ih => simp [check_retry_go, h att, ih]

theorem tp_loop_all_unknown (inp : PassInput)
    (h : ∀ oid, (inp.oracle oid).1 = .unknown) (l : List (ℚ × ℕ)) (s : OMState) :
    tp_loop inp s l = (s, false) := by
  induction l generalizing s with
  | nil => rfl
  | cons p rest ih =>
    obtain ⟨size, tid⟩ := p
    simp [tp_loop, h tid, ih]

theorem sl_loop_all_unknown (inp : PassInput)
    (h : ∀ oid, (inp.oracle oid).1 = .unknown) (l : List (ℚ × ℕ)) (s : OMState) :
    sl_loop inp s l = (s, false) := by
  induction l generalizing s with
  | nil => rfl
  | cons p rest ih =>
    obtain ⟨size, oid⟩ := p
    simp [sl_loop, h oid, ih]

/-- C4: ambiguous status never mutates trade state.  First conjunct: the
bounded status-retry loop answers `unknown` when every attempt does.  Second
conjunct: a reconciliation pass in which every status query (including the
post-cancel re-check) answers `unknown` leaves the martingale level, the lot
size, both order dicts, the emitted trade results and the persistence-write
count untouched, for every state with no pending TP retry. -/
theorem C4_unknown_status_no_mutation :
    (∀ (query : ℕ → OrderStatus × Option ℚ) (m : ℕ),
        (∀ i, (query i).1 = .unknown) →
        check_order_filled_retry query m = (.unknown, none)) ∧
    (∀ (inp : PassInput) (s : OMState),
        (∀ oid, (inp.oracle oid).1 = .unknown) →
        inp.cancel_recheck = .unknown →
        s.tp_retry_needed = false →
        (check_orders_status inp s).consecutive_losses = s.consecutive_losses ∧
        (check_orders_status inp s).dynamic_lot_size = s.dynamic_lot_size ∧
        (check_orders_status inp s).tp_order_ids = s.tp_order_ids ∧
        (check_orders_status inp s).sl_order_ids = s.sl_order_ids ∧
        (check_orders_status inp s).events = s.events ∧
        (check_orders_status inp s).saves = s.saves) := by
  constructor
  · intro query m h
    exact check_retry_go_all_unknown query h 1 m
  · intro inp s h hc hr
    unfold check_orders_status
    rw [tp_retry_block_skip inp s hr]
    cases he : s.entry_order_id with
    | none =>
      simp [entry_check_none inp s he, tp_loop_all_unknown inp h,
        sl_loop_all_unknown inp h]
    | some eid =>
      cases hex : inp.expired with
      | true =>
        simp [entry_check, he, h eid, hex, hc,
          tp_loop_all_unknown inp h, sl_loop_all_unknown inp h]
      | false =>
        simp [entry_check, he, h eid, hex,
          tp_loop_all_unknown inp h, sl_loop_all_unknown inp h]

/-- Concrete reconciliation input for witnesses: every status query answers
`unknown`, and the entry order is judged expired. -/
def allUnknownInput : PassInput :=
  { oracle := fun _ => (.unknown, none)
    expired := true
    cancel_recheck := .unknown
    tp_retry_ok := false
    new_tp_id := 0 }

/-- Concrete state for the C4 witness: an outstanding entry order together
with a tracked TP/SL pair. -/
def c4State : OMState :=
  { witnessPair with entry_order_id := some 9 }

theorem C4_unknown_status_no_mutation_witness :
    check_order_filled_retry (fun _ => (.unknown, none)) 5 = (.unknown, none) ∧
    ((check_orders_status allUnknownInput c4State).consecutive_losses
        = c4State.consecutive_losses ∧
     (check_orders_status allUnknownInput c4State).dynamic_lot_size
        = c4State.dynamic_lot_size ∧
     (check_orders_status allUnknownInput c4State).tp_order_ids = c4State.tp_order_ids ∧
     (check_orders_status allUnknownInput c4State).sl_order_ids = c4State.sl_order_ids ∧
     (check_orders_status allUnknownInput c4State).events = c4State.events ∧
     (check_orders_status allUnknownInput c4State).saves = c4State.saves) :=
  ⟨C4_unknown_status_no_mutation.1 (fun _ => (.unknown, none)) 5 (fun _ => rfl),
   C4_unknown_status_no_mutation.2 allUnknownInput c4State (fun _ => rfl) rfl rfl⟩

/-- Concrete pair state that separates the code's sizing from the
specification's: base lot 1.25, martingale factor 2, fresh level 0. -/
def c1State : OMState :=
  pair_state (mkRat 5 4) (mkRat 2 1) (mkRat 5 4) 0 (mkRat 5 4) 10 11
    (some .LONG) (some (mkRat 100 1))

/-- C1 counterexample: after one loss (SL filled) from base size 1.25 with
multiplier 2, the code's next size is `math.ceil(1.25 * 2) = 3`, while the
claimed formula `floor_to_step(base * multiplier^level)` gives 2.5 at the
0.001 step and 2 at the whole-contract step — the claim is false as stated. -/
theorem C1_counterexample :
    (check_orders_status slClosedInput c1State).consecutive_losses = 1 ∧
    (check_orders_status slClosedInput c1State).dynamic_lot_size = mkRat 3 1 ∧
    specNextSize (mkRat 5 4) (mkRat 2 1) 1 1000 = mkRat 5 2 ∧
    specNextSize (mkRat 5 4) (mkRat 2 1) 1 1 = mkRat 2 1 ∧
    decide ((mkRat 3 1 : ℚ) = mkRat 5 2) = false ∧
    decide ((mkRat 3 1 : ℚ) = mkRat 2 1) = false := by
  decide

/-- C1 (amended): the next order size is not `floor_to_step(base *
multiplier^level)`; it follows the iterated rounded-up recurrence
`size(0) = base`, `size(k+1) = ceil(size(k) * multiplier)` — each SL-fill
pass advances the lot size by one step of this recurrence and the level by
one. -/
theorem C1_amended_iterated_ceil (base factor : ℚ) (n : ℕ) (sz : ℚ) (a b : ℕ)
    (side : Option Side) (ep : Option ℚ) (inp : PassInput)
    (hoa : (inp.oracle a).1 = .opened) (hob : (inp.oracle b).1 = .closed) :
    lossSize base factor 0 = base ∧
    (check_orders_status inp
        (pair_state base factor (lossSize base factor n) n sz a b side ep)).dynamic_lot_size
      = lossSize base factor (n + 1) ∧
    (check_orders_status inp
        (pair_state base factor (lossSize base factor n) n sz a b side ep)).consecutive_losses
      = n + 1 := by
  rw [pass_pair_sl_closed inp _ sz a b rfl rfl rfl rfl (Or.inl hoa) hob]
  exact ⟨rfl, rfl, rfl⟩

theorem C1_amended_iterated_ceil_witness :
    lossSize (mkRat 5 4) (mkRat 2 1) 0 = mkRat 5 4 ∧
    (check_orders_status slClosedInput
        (pair_state (mkRat 5 4) (mkRat 2 1) (lossSize (mkRat 5 4) (mkRat 2 1) 1) 1
          (mkRat 5 4) 10 11 (some .LONG) (some (mkRat 100 1)))).dynamic_lot_size
      = lossSize (mkRat 5 4) (mkRat 2 1) 2 ∧
    (check_orders_status slClosedInput
        (pair_state (mkRat 5 4) (mkRat 2 1) (lossSize (mkRat 5 4) (mkRat 2 1) 1) 1
          (mkRat 5 4) 10 11 (some .LONG) (some (mkRat 100 1)))).consecutive_losses = 2 :=
  C1_amended_iterated_ceil (mkRat 5 4) (mkRat 2 1) 1 (mkRat 5 4) 10 11
    (some .LONG) (some (mkRat 100 1)) slClosedInput rfl rfl

/-- C5: `place_entry_order` fails closed.  If the live query for open
positions or the one for open orders raises, `has_open_position_or_order`
reports `true` and the entry is refused. -/
theorem C5_fails_closed (env : ExchEnv) (s : OMState) (side : Side)
    (trigger_price offset_sl : ℚ)
    (h : env.positions = .error () ∨ env.open_orders = .error ()) :
    has_open_position_or_order env s = true ∧
    place_entry_order env side trigger_price offset_sl s = .skippedExisting := by
  have hpos : has_open_position_or_order env s = true := by
    cases hl : env.lock_active with
    | true => simp [has_open_position_or_order, hl]
    | false =>
      rcases h with h | h
      · simp [has_open_position_or_order, hl, h]
      · cases hp : env.positions with
        | error e => simp [has_open_position_or_order, hl, hp]
        | ok contracts => simp [has_open_position_or_order, hl, hp, h]
  exact ⟨hpos, by simp [place_entry_order, hpos]⟩

/-- Concrete environment for the C5 witness: the positions query raises. -/
def posErrorEnv : ExchEnv :=
  { lock_active := false
    positions := .error ()
    entry_status := .unknown
    open_orders := .ok [] }

theorem C5_fails_closed_witness :
    has_open_position_or_order posErrorEnv witnessPair = true ∧
    place_entry_order posErrorEnv .LONG (mkRat 100 1) (mkRat 1 2) witnessPair
      = .skippedExisting :=
  C5_fails_closed posErrorEnv witnessPair .LONG (mkRat 100 1) (mkRat 1 2) (Or.inl rfl)

/-- Concrete environment with nothing open anywhere and no errors. -/
def emptyEnv : ExchEnv :=
  { lock_active := false
    positions := .ok []
    entry_status := .unknown
    open_orders := .ok [] }

/-- Concrete state whose computed order size (0.001) is at the exchange
minimum step and below any whole-contract minimum. -/
def smallState : OMState :=
  { lot_size := mkRat 1 1000
    martingale_factor := mkRat 2 1
    dynamic_lot_size := mkRat 1 1000
    consecutive_losses := 0
    entry_order_id := none
    entry_price := none
    open_position_side := none
    tp_order_ids := []
    sl_order_ids := []
    tp_retry_needed := false
    tp_filled_price := none
    events := []
    cancels := []
    saves := 0 }

/-- C6 counterexample: with a computed size of 0.001 — below a
whole-contract minimum step of 1 — and no open position or order,
`place_entry_order` submits the order instead of refusing with a
size-too-small condition: no minimum-size validation exists on this path. -/
theorem C6_counterexample :
    decide (smallState.dynamic_lot_size < mkRat 1 1) = true ∧
    place_entry_order emptyEnv .LONG (mkRat 100 1) (mkRat 1 2) smallState
      = .submitted (mkRat 1 1000) (mkRat 995 10) ∧
    decide (place_entry_order emptyEnv .LONG (mkRat 100 1) (mkRat 1 2) smallState
      = .sizeTooSmall) = false := by
  decide

/-- C6 (amended): `place_entry_order` performs no minimum-size check at all.
Whenever the open-position/open-order gate passes, it submits with
`vol = round(dynamic_lot_size, 3)` — however small the computed size is —
and its only refusal outcome is the existing-position/order skip. -/
theorem C6_amended_no_min_size_check (env : ExchEnv) (s : OMState) (side : Side)
    (trigger_price offset_sl : ℚ)
    (h : has_open_position_or_order env s = false) :
    place_entry_order env side trigger_price offset_sl s
      = .submitted (roundTo 3 s.dynamic_lot_size)
          (match side with
           | .SHORT => roundTo 1 (qadd trigger_price offset_sl)
           | .LONG => roundTo 1 (qsub trigger_price offset_sl)) := by
  simp [place_entry_order, h]

theorem C6_amended_no_min_size_check_witness :
    place_entry_order emptyEnv .SHORT (mkRat 100 1) (mkRat 1 2) smallState
      = .submitted (roundTo 3 smallState.dynamic_lot_size)
          (roundTo 1 (qadd (mkRat 100 1) (mkRat 1 2))) :=
  C6_amended_no_min_size_check emptyEnv smallState .SHORT (mkRat 100 1) (mkRat 1 2) rfl

/-- C7: restart safety of the persisted snapshot.  First conjunct: on
process start, a snapshot whose `last_trade_time` is more than the (positive)
reset timeout in the past, or which is missing `trade_id` or the order-size
field `dynamic_lot_size`, is discarded — the sizing level resets to 0, the
lot size to the base size, and no trade id is restored, exactly the state of
a fresh process.  Second conjunct: a reset timeout of 0 disables the
staleness check — with both required fields present the saved sizing state
is adopted no matter how old it is. -/
theorem C7_restart_state_reset :
    (∀ (reset_timeout now : ℚ) (st : SavedState) (r : RestoreState),
        ((reset_timeout > mkRat 0 1 ∧
            qsub now (st.last_trade_time.getD (mkRat 0 1)) > reset_timeout)
          ∨ st.trade_id = none ∨ st.dynamic_lot_size = none) →
        (restore_trade_state true reset_timeout now (some st) r).om.consecutive_losses = 0 ∧
        (restore_trade_state true reset_timeout now (some st) r).om.dynamic_lot_size
          = r.om.lot_size ∧
        (restore_trade_state true reset_timeout now (some st) r).current_trade_id = none) ∧
    (∀ (now : ℚ) (st : SavedState) (r : RestoreState) (tid : ℕ) (d : ℚ),
        st.trade_id = some tid → st.dynamic_lot_size = some d →
        (restore_trade_state true (mkRat 0 1) now (some st) r).om.dynamic_lot_size = d ∧
        (restore_trade_state true (mkRat 0 1) now (some st) r).om.consecutive_losses
          = st.consecutive_losses.getD 0 ∧
        (restore_trade_state true (mkRat 0 1) now (some st) r).current_trade_id
          = some tid) := by
  constructor
  · intro reset_timeout now st r h
    have hreset : is_state_reset_needed reset_timeout now (some st) = true := by
      rcases h with ⟨hgt, helap⟩ | h | h
      · cases hna : (st.trade_id.isNone || st.dynamic_lot_size.isNone) with
        | true => simp [is_state_reset_needed, hna]
        | false =>
          simp only [is_state_reset_needed, hna, Bool.false_eq_true, if_false]
          simp
          exact ⟨hgt, helap⟩
      · simp [is_state_reset_needed, h]
      · simp [is_state_reset_needed, h]
    simp [restore_trade_state, hreset, reset_martingale]
  · intro now st r tid d ht hd
    have hreset : is_state_reset_needed (mkRat 0 1) now (some st) = false := by
      simp [is_state_reset_needed, ht, hd, lt_irrefl]
    have hreset0 : is_state_reset_needed 0 now (some st) = false := hreset
    simp [restore_trade_state, hreset, hreset0, ht, hd]

/-- Stale persisted snapshot for the C7 witness: complete fields, but last
trade 4000 time units ago. -/
def staleSaved : SavedState :=
  { trade_id := some 1
    dynamic_lot_size := some (mkRat 8 1)
    consecutive_losses := some 3
    open_position_side := some .LONG
    last_trade_time := some (mkRat 1000 1)
    tp_order_ids := []
    sl_order_ids := []
    entry_price := none }

/-- Fresh process state for the C7 witness. -/
def freshRestore : RestoreState :=
  { om := smallState, current_trade_id := none }

theorem C7_restart_state_reset_witness :
    ((restore_trade_state true (mkRat 3600 1) (mkRat 5000 1) (some staleSaved)
        freshRestore).om.consecutive_losses = 0 ∧
     (restore_trade_state true (mkRat 3600 1) (mkRat 5000 1) (some staleSaved)
        freshRestore).om.dynamic_lot_size = freshRestore.om.lot_size ∧
     (restore_trade_state true (mkRat 3600 1) (mkRat 5000 1) (some staleSaved)
        freshRestore).current_trade_id = none) ∧
    ((restore_trade_state true (mkRat 0 1) (mkRat 5000 1) (some staleSaved)
        freshRestore).om.dynamic_lot_size = mkRat 8 1 ∧
     (restore_trade_state true (mkRat 0 1) (mkRat 5000 1) (some staleSaved)
        freshRestore).om.consecutive_losses = staleSaved.consecutive_losses.getD 0 ∧
     (restore_trade_state true (mkRat 0 1) (mkRat 5000 1) (some staleSaved)
        freshRestore).current_trade_id = some 1) :=
  ⟨C7_restart_state_reset.1 (mkRat 3600 1) (mkRat 5000 1) staleSaved freshRestore
      (Or.inl ⟨by decide, by decide⟩),
   C7_restart_state_reset.2 (mkRat 5000 1) staleSaved freshRestore 1 (mkRat 8 1) rfl rfl⟩

/-- C8: characterization of entry-order expiry under normal observations
(timestamp recorded, both fetches answer, market price present and non-zero,
side defined): the order is judged expired exactly when more than
`order_timeout_sec` has elapsed, there is no partial fill, and the market
price has not moved into the continuation zone around the entry price; in
particular a price still converging toward the entry level defers the
timeout. -/
theorem C8_entry_expiry_characterization (e : ExpiryEnv) (t0 : ℚ) (od ord : FetchedOrder)
    (p : ℚ) (sd : Side)
    (h1 : e.order_timestamp = some t0)
    (h2 : e.first_fetch = .ok (some od))
    (h3 : e.current_market_price = some p)
    (h4 : ¬(p = mkRat 0 1))
    (h5 : e.second_fetch = .ok (some ord))
    (h6 : e.side = some sd) :
    is_entry_order_expired e = true ↔
      (e.order_timeout_sec < qsub e.now t0
        ∧ ¬(od.filled > mkRat 0 1 ∧ od.filled < od.amount)
        ∧ continuation_zone sd p ord.price e.offset_entry = false) := by
  unfold is_entry_order_expired continuation_zone
  rw [h1, h2, h3, h5, h6]
  have h40 : ¬p = (0 : ℚ) := h4
  rcases le_or_lt (qsub e.now t0) e.order_timeout_sec with hle | hlt
  · simp [hle, not_lt.mpr hle]
  · by_cases hpf : (od.filled > mkRat 0 1 ∧ od.filled < od.amount)
    · have hpf0 : od.filled > (0 : ℚ) ∧ od.filled < od.amount := hpf
      simp [not_le.mpr hlt, hpf0]
    · have hpf0 : ¬(od.filled > (0 : ℚ) ∧ od.filled < od.amount) := hpf
      cases sd <;> (simp [not_le.mpr hlt, h40, imp_iff_not_or, not_lt]; exact Or.inr hlt)

/-- Expiry environment for the C8 witness: a SHORT entry at price 100 with
offset 0.5, open for 61s against a 60s timeout, no partial fill, and a
stationary market price of 90 far outside the continuation zone. -/
def c8env : ExpiryEnv :=
  { order_timestamp := some (mkRat 0 1)
    now := mkRat 61 1
    order_timeout_sec := mkRat 60 1
    first_fetch := .ok (some ⟨mkRat 0 1, mkRat 2 1, mkRat 100 1⟩)
    second_fetch := .ok (some ⟨mkRat 0 1, mkRat 2 1, mkRat 100 1⟩)
    current_market_price := some (mkRat 90 1)
    offset_entry := mkRat 1 2
    side := some .SHORT }

theorem C8_entry_expiry_characterization_witness :
    is_entry_order_expired c8env = true :=
  (C8_entry_expiry_characterization c8env (mkRat 0 1)
      ⟨mkRat 0 1, mkRat 2 1, mkRat 100 1⟩ ⟨mkRat 0 1, mkRat 2 1, mkRat 100 1⟩
      (mkRat 90 1) .SHORT rfl rfl rfl (by decide) rfl rfl).mpr
    ⟨by decide, by decide, by decide⟩
